import Mathlib

/-!
# AR 3D product viewer: rotation, projection and frame driver

A shallow embedding of the two viewers of the repository:

* `App`: the imperative class `ProductViewer` of `src/app.js`;
* `Jsx`: the React component `ProductViewer` of `src/ProductViewer.jsx`.

JavaScript numbers are idealised as elements of a field `α` (the theorems about
trigonometry instantiate `α` with `ℝ`); the part of the JavaScript `Math` object the
program uses (`Math.cos`, `Math.sin`, `Math.PI`) is passed as a parameter `JSMath α`,
so every definition stays executable, e.g. over `ℚ`.

Canvas painting is modelled by the list of drawing commands a frame issues. Writes
to DOM controls (slider positions, text labels, button captions) are outputs that
the program never reads back; they are not part of the modelled state.
-/

/-- The members of the JavaScript `Math` object used by the viewers. -/
structure JSMath (α : Type) where
  cos : α → α
  sin : α → α
  PI : α

/-- JavaScript `a % b` on numbers: the remainder of the division truncated towards zero
(the result carries the sign of the dividend). -/
def jsRem {α : Type} [LinearOrderedField α] [FloorRing α] (a b : α) : α :=
  a - b * (if 0 ≤ a / b then (⌊a / b⌋ : ℤ) else (⌈a / b⌉ : ℤ))

/-- One canvas operation issued by a frame. -/
inductive DrawCmd (α : Type) where
  /-- Painted by `fillStyle = 'white'; fillRect(0, 0, w, h)`. -/
  | clear (w h : α)
  /-- Painted by `createLinearGradient(0, 0, w, h)` with the two fixed colour stops, then
  `fillRect(0, 0, w, h)`. -/
  | gradient (w h : α)
  /-- Painted by `beginPath(); moveTo(x1, y1); lineTo(x2, y2); stroke()`. -/
  | line (x1 y1 x2 y2 : α)
  /-- Painted by `beginPath(); arc(cx, cy, r, 0, 2π); fill()`. -/
  | disc (cx cy r : α)
  deriving DecidableEq, Repr

/-- The drawing surface: only its pixel dimensions are read. -/
structure Canvas (α : Type) where
  width : α
  height : α

/-! ## `src/app.js` -/

namespace App

/-- The fields of the class instance that the methods read and write. -/
structure ProductViewer (α : Type) where
  rotationX : α
  rotationY : α
  rotationZ : α
  scale : α
  autoRotate : Bool
  deriving DecidableEq, Repr

variable {α : Type}

/-- Field values assigned by the constructor (lines 8-12). -/
def init [Field α] : ProductViewer α :=
  { rotationX := 0, rotationY := 0, rotationZ := 0, scale := 1, autoRotate := false }

/-- Method `reset()` (lines 67-86). -/
def reset [Field α] (s : ProductViewer α) : ProductViewer α :=
  { s with rotationX := 0, rotationY := 0, rotationZ := 0, scale := 1, autoRotate := false }

/-- Method `toggleAutoRotate()` (lines 88-91). -/
def toggleAutoRotate (s : ProductViewer α) : ProductViewer α :=
  { s with autoRotate := !s.autoRotate }

/-- Local `const size = 80` (line 94). -/
def size [Field α] : α := 80

/-- The vertex table (lines 95-104). -/
def vertices [Field α] : List (α × α × α) :=
  [ (-size, -size, -size),
    (size, -size, -size),
    (size, size, -size),
    (-size, size, -size),
    (-size, -size, size),
    (size, -size, size),
    (size, size, size),
    (-size, size, size) ]

/-- The body of the first `map` callback (lines 112-128), given the three angles in radians. -/
def rotateVertex [Field α] (M : JSMath α) (rotX rotY rotZ : α) (vertex : α × α × α) :
    α × α × α :=
  let (x, y, z) := vertex
  -- Rotation X
  let y1 := y * M.cos rotX - z * M.sin rotX
  let z1 := y * M.sin rotX + z * M.cos rotX
  -- Rotation Y
  let x2 := x * M.cos rotY + z1 * M.sin rotY
  let z2 := -x * M.sin rotY + z1 * M.cos rotY
  -- Rotation Z
  let x3 := x2 * M.cos rotZ - y1 * M.sin rotZ
  let y3 := x2 * M.sin rotZ + y1 * M.cos rotZ
  (x3, y3, z2)

/-- The local `rotatedVertices` of `draw3DCube` (lines 106-128). -/
def rotatedVertices [Field α] (M : JSMath α) (s : ProductViewer α) : List (α × α × α) :=
  -- Convert degrees to radians
  let rotX := (s.rotationX * M.PI) / 180
  let rotY := (s.rotationY * M.PI) / 180
  let rotZ := (s.rotationZ * M.PI) / 180
  vertices.map (rotateVertex M rotX rotY rotZ)

/-- The body of the second `map` callback (lines 131-136). -/
def projectVertex [Field α] (scale : α) (vertex : α × α × α) : α × α :=
  let perspective := 300 / (300 + vertex.2.2)
  let x := vertex.1 * perspective * scale
  let y := vertex.2.1 * perspective * scale
  (x, y)

/-- The local `projectedVertices` of `draw3DCube` (lines 131-136). -/
def projectedVertices [Field α] (M : JSMath α) (s : ProductViewer α) : List (α × α) :=
  (rotatedVertices M s).map (projectVertex s.scale)

/-- The edge table (lines 139-143). -/
def edges : List (ℕ × ℕ) :=
  [ (0, 1), (1, 2), (2, 3), (3, 0),
    (4, 5), (5, 6), (6, 7), (7, 4),
    (0, 4), (1, 5), (2, 6), (3, 7) ]

/-- The body of `edges.forEach` (lines 149-158). Destructuring `projectedVertices[i]` throws
when `i` is out of range; that is the `none` result. -/
def drawEdge [Field α] (canvas : Canvas α) (pv : List (α × α)) (edge : ℕ × ℕ) :
    Option (DrawCmd α) := do
  let (start, stop) := edge
  let (x1, y1) ← pv[start]?
  let (x2, y2) ← pv[stop]?
  pure (DrawCmd.line (canvas.width / 2 + x1) (canvas.height / 2 + y1)
    (canvas.width / 2 + x2) (canvas.height / 2 + y2))

/-- The body of `projectedVertices.forEach` (lines 162-166). -/
def drawVertex [Field α] (canvas : Canvas α) (p : α × α) : DrawCmd α :=
  DrawCmd.disc (canvas.width / 2 + p.1) (canvas.height / 2 + p.2) 5

/-- Method `draw3DCube()` (lines 93-167): the canvas operations it issues, or `none` when a
vertex lookup throws. -/
def draw3DCube [Field α] (M : JSMath α) (canvas : Canvas α) (s : ProductViewer α) :
    Option (List (DrawCmd α)) := do
  let pv := projectedVertices M s
  let segments ← edges.mapM (drawEdge canvas pv)
  pure (segments ++ pv.map (drawVertex canvas))

/-- The state change of `animate()` (lines 181-187). -/
def autoRotateStep [LinearOrderedField α] [FloorRing α] (s : ProductViewer α) :
    ProductViewer α :=
  if s.autoRotate then { s with rotationY := jsRem (s.rotationY + 2) 360 } else s

/-- One call of `animate()` (lines 169-194), up to the rescheduling: the new field values
and the canvas operations issued. -/
def animate [LinearOrderedField α] [FloorRing α] (M : JSMath α) (canvas : Canvas α)
    (s : ProductViewer α) : ProductViewer α × Option (List (DrawCmd α)) :=
  let s1 := autoRotateStep s
  (s1, (draw3DCube M canvas s1).map
    (fun cube => DrawCmd.clear canvas.width canvas.height ::
      DrawCmd.gradient canvas.width canvas.height :: cube))

/-- What the page can do to a running viewer: the four slider `input` listeners, the two
button `click` listeners (lines 35-59) and the animation frame callback (line 193). -/
inductive Event (α : Type) where
  | inputRotationX (value : α)
  | inputRotationY (value : α)
  | inputRotationZ (value : α)
  | inputScale (value : α)
  | clickReset
  | clickRotateAuto
  | frame

/-- The field values after one event. -/
def step [LinearOrderedField α] [FloorRing α] (M : JSMath α) (canvas : Canvas α)
    (s : ProductViewer α) : Event α → ProductViewer α
  | .inputRotationX v => { s with rotationX := v }
  | .inputRotationY v => { s with rotationY := v }
  | .inputRotationZ v => { s with rotationZ := v }
  | .inputScale v => { s with scale := v }
  | .clickReset => reset s
  | .clickRotateAuto => toggleAutoRotate s
  | .frame => (animate M canvas s).1

/-- The field values after a sequence of events, starting from `s`. -/
def run [LinearOrderedField α] [FloorRing α] (M : JSMath α) (canvas : Canvas α)
    (s : ProductViewer α) (events : List (Event α)) : ProductViewer α :=
  events.foldl (step M canvas) s

end App

/-! ## `src/ProductViewer.jsx` -/

namespace Jsx

/-- The five `useState` cells of the component (lines 5-9). -/
structure ProductViewer (α : Type) where
  rotationX : α
  rotationY : α
  rotationZ : α
  scale : α
  autoRotate : Bool
  deriving DecidableEq, Repr

variable {α : Type}

/-- Initial values of the `useState` cells (lines 5-9). -/
def init [Field α] : ProductViewer α :=
  { rotationX := 0, rotationY := 0, rotationZ := 0, scale := 1, autoRotate := false }

/-- Handler `handleReset` (lines 99-104): the four setters it calls; `setAutoRotate` is not among them. -/
def handleReset [Field α] (s : ProductViewer α) : ProductViewer α :=
  { s with rotationX := 0, rotationY := 0, rotationZ := 0, scale := 1 }

/-- The `onClick` of the second button (line 165): `setAutoRotate(!autoRotate)`. -/
def toggleAutoRotate (s : ProductViewer α) : ProductViewer α :=
  { s with autoRotate := !s.autoRotate }

/-- Local `const size = 80` (line 31). -/
def size [Field α] : α := 80

/-- The vertex table (lines 32-41). -/
def vertices [Field α] : List (α × α × α) :=
  [ (-size, -size, -size),
    (size, -size, -size),
    (size, size, -size),
    (-size, size, -size),
    (-size, -size, size),
    (size, -size, size),
    (size, size, size),
    (-size, size, size) ]

/-- The local `rotatedVertices` of `draw` (lines 43-57). -/
def rotatedVertices [Field α] (M : JSMath α) (s : ProductViewer α) : List (α × α × α) :=
  -- Convert to radians
  let rotX := (s.rotationX * M.PI) / 180
  let rotY := (s.rotationY * M.PI) / 180
  let rotZ := (s.rotationZ * M.PI) / 180
  -- Apply rotations
  vertices.map fun (x, y, z) =>
    let y1 := y * M.cos rotX - z * M.sin rotX
    let z1 := y * M.sin rotX + z * M.cos rotX
    let x2 := x * M.cos rotY + z1 * M.sin rotY
    let z2 := -x * M.sin rotY + z1 * M.cos rotY
    let x3 := x2 * M.cos rotZ - y1 * M.sin rotZ
    let y3 := x2 * M.sin rotZ + y1 * M.cos rotZ
    (x3, y3, z2)

/-- The local `projectedVertices` of `draw` (lines 59-63). -/
def projectedVertices [Field α] (M : JSMath α) (s : ProductViewer α) : List (α × α) :=
  (rotatedVertices M s).map fun (x, y, z) =>
    let perspective := 300 / (300 + z)
    (x * perspective * s.scale, y * perspective * s.scale)

/-- The edge table (lines 66-70). -/
def edges : List (ℕ × ℕ) :=
  [ (0, 1), (1, 2), (2, 3), (3, 0),
    (4, 5), (5, 6), (6, 7), (7, 4),
    (0, 4), (1, 5), (2, 6), (3, 7) ]

/-- The cube part of `draw` (lines 30-90): the canvas operations it issues, or `none` when
a vertex lookup throws. -/
def drawCube [Field α] (M : JSMath α) (canvas : Canvas α) (s : ProductViewer α) :
    Option (List (DrawCmd α)) := do
  let pv := projectedVertices M s
  let segments ← edges.mapM fun (start, stop) => do
    let (x1, y1) ← pv[start]?
    let (x2, y2) ← pv[stop]?
    pure (DrawCmd.line (canvas.width / 2 + x1) (canvas.height / 2 + y1)
      (canvas.width / 2 + x2) (canvas.height / 2 + y2))
  let discs := pv.map fun (x, y) =>
    DrawCmd.disc (canvas.width / 2 + x) (canvas.height / 2 + y) 5
  pure (segments ++ discs)

/-- One call of `draw` (lines 18-93), up to the rescheduling: the values of the state cells
afterwards and the canvas operations issued. The body calls no setter and does not read
`autoRotate`, so the cells come back as they were. -/
def draw [Field α] (M : JSMath α) (canvas : Canvas α) (s : ProductViewer α) :
    ProductViewer α × Option (List (DrawCmd α)) :=
  (s, (drawCube M canvas s).map
    (fun cube => DrawCmd.clear canvas.width canvas.height ::
      DrawCmd.gradient canvas.width canvas.height :: cube))

end Jsx

/-! ## Definitions that follow the specification's words -/

namespace Spec

variable {α : Type}

/-- Standard rotation matrix about the X axis by the angle `θ`. -/
def Rx [Field α] (M : JSMath α) (θ : α) : Matrix (Fin 3) (Fin 3) α :=
  !![1, 0, 0;
     0, M.cos θ, -M.sin θ;
     0, M.sin θ, M.cos θ]

/-- Standard rotation matrix about the Y axis by the angle `θ`. -/
def Ry [Field α] (M : JSMath α) (θ : α) : Matrix (Fin 3) (Fin 3) α :=
  !![M.cos θ, 0, M.sin θ;
     0, 1, 0;
     -M.sin θ, 0, M.cos θ]

/-- Standard rotation matrix about the Z axis by the angle `θ`. -/
def Rz [Field α] (M : JSMath α) (θ : α) : Matrix (Fin 3) (Fin 3) α :=
  !![M.cos θ, -M.sin θ, 0;
     M.sin θ, M.cos θ, 0;
     0, 0, 1]

/-- A triple as a column vector. -/
def toVec (v : α × α × α) : Fin 3 → α :=
  ![v.1, v.2.1, v.2.2]

/-- Conversion of an angle from degrees to radians. -/
def radians [Field α] (M : JSMath α) (degrees : α) : α :=
  degrees * M.PI / 180

/-- Floored remainder `a mod b`; it lies in `[0, b)` for positive `b`. -/
def floorMod [LinearOrderedField α] [FloorRing α] (a b : α) : α :=
  a - b * (⌊a / b⌋ : ℤ)

/-- Perspective projection of an unrotated vertex at scale 1. -/
def projectPlain [Field α] (v : α × α × α) : α × α :=
  (v.1 * 300 / (300 + v.2.2), v.2.1 * 300 / (300 + v.2.2))

/-- A projected point stretched by the factor `k` in both coordinates. -/
def stretch [Field α] (k : α) (p : α × α) : α × α :=
  (k * p.1, k * p.2)

end Spec

/-- The fields of the imperative viewer, read as the state cells of the component. -/
def App.ProductViewer.toJsx {α : Type} (s : App.ProductViewer α) : Jsx.ProductViewer α :=
  { rotationX := s.rotationX, rotationY := s.rotationY, rotationZ := s.rotationZ,
    scale := s.scale, autoRotate := s.autoRotate }

/-! ## Auxiliary lemmas -/

section Lemmas

variable {α : Type}

/-- Unfolding of one rotated vertex. -/
theorem App.rotateVertex_eq [Field α] (M : JSMath α) (a b c x y z : α) :
    App.rotateVertex M a b c (x, y, z) =
      ((x * M.cos b + (y * M.sin a + z * M.cos a) * M.sin b) * M.cos c
          - (y * M.cos a - z * M.sin a) * M.sin c,
       (x * M.cos b + (y * M.sin a + z * M.cos a) * M.sin b) * M.sin c
          + (y * M.cos a - z * M.sin a) * M.cos c,
       -x * M.sin b + (y * M.sin a + z * M.cos a) * M.cos b) := rfl

/-- The component rotates the vertex table exactly as the class does. -/
theorem Jsx.rotatedVertices_eq [Field α] (M : JSMath α) (s : App.ProductViewer α) :
    Jsx.rotatedVertices M s.toJsx = App.rotatedVertices M s := rfl

/-- The component projects the vertex table exactly as the class does. -/
theorem Jsx.projectedVertices_eq [Field α] (M : JSMath α) (s : App.ProductViewer α) :
    Jsx.projectedVertices M s.toJsx = App.projectedVertices M s := rfl

/-- With all three angles at 0 degrees the rotation leaves the vertex table as it is. -/
theorem App.rotatedVertices_zero (auto : Bool) :
    App.rotatedVertices ⟨Real.cos, Real.sin, Real.pi⟩ ⟨0, 0, 0, 1, auto⟩ = App.vertices := by
  simp [App.rotatedVertices, App.vertices, App.rotateVertex_eq]

/-- The rotation preserves the squared length of any vector. -/
theorem App.rotateVertex_sq_length (a b c : ℝ) (v : ℝ × ℝ × ℝ) :
    (App.rotateVertex ⟨Real.cos, Real.sin, Real.pi⟩ a b c v).1 ^ 2 +
      (App.rotateVertex ⟨Real.cos, Real.sin, Real.pi⟩ a b c v).2.1 ^ 2 +
      (App.rotateVertex ⟨Real.cos, Real.sin, Real.pi⟩ a b c v).2.2 ^ 2 =
    v.1 ^ 2 + v.2.1 ^ 2 + v.2.2 ^ 2 := by
  obtain ⟨x, y, z⟩ := v
  rw [App.rotateVertex_eq]
  have ha := Real.sin_sq_add_cos_sq a
  have hb := Real.sin_sq_add_cos_sq b
  have hc := Real.sin_sq_add_cos_sq c
  simp only
  linear_combination
    ((x * Real.cos b + (y * Real.sin a + z * Real.cos a) * Real.sin b) ^ 2 +
      (y * Real.cos a - z * Real.sin a) ^ 2) * hc +
    (x ^ 2 + (y * Real.sin a + z * Real.cos a) ^ 2) * hb + (y ^ 2 + z ^ 2) * ha

/-- Every entry of the vertex table has squared length `3 * 80 ^ 2`. -/
theorem App.vertices_sq_length (v : ℝ × ℝ × ℝ) (hv : v ∈ (App.vertices : List (ℝ × ℝ × ℝ))) :
    v.1 ^ 2 + v.2.1 ^ 2 + v.2.2 ^ 2 = 3 * 80 ^ 2 := by
  simp only [App.vertices, App.size, List.mem_cons, List.mem_singleton, List.not_mem_nil,
    or_false] at hv
  rcases hv with rfl | rfl | rfl | rfl | rfl | rfl | rfl | rfl <;> norm_num

/-- Adding 360 degrees to `rotationY` does not change the projected points. -/
theorem App.projectedVertices_add_360 (s : App.ProductViewer ℝ) :
    App.projectedVertices ⟨Real.cos, Real.sin, Real.pi⟩
        { s with rotationY := s.rotationY + 360 } =
      App.projectedVertices ⟨Real.cos, Real.sin, Real.pi⟩ s := by
  have hangle : (s.rotationY + 360) * Real.pi / 180 = s.rotationY * Real.pi / 180 + 2 * Real.pi := by
    ring
  have hf : ∀ a b c : ℝ,
      App.rotateVertex ⟨Real.cos, Real.sin, Real.pi⟩ a (b + 2 * Real.pi) c =
        App.rotateVertex ⟨Real.cos, Real.sin, Real.pi⟩ a b c := by
    intro a b c
    funext v
    obtain ⟨x, y, z⟩ := v
    simp only [App.rotateVertex_eq, Real.cos_add_two_pi, Real.sin_add_two_pi]
  simp only [App.projectedVertices, App.rotatedVertices, hangle, hf]

/-- On a non-negative quotient the JavaScript remainder is the floored remainder. -/
theorem jsRem_eq_floorMod [LinearOrderedField α] [FloorRing α] (a b : α) (h : 0 ≤ a / b) :
    jsRem a b = Spec.floorMod a b := by
  simp [jsRem, Spec.floorMod, h]

/-- The floored remainder by 360 lies in `[0, 360)`. -/
theorem Spec.floorMod_360_bounds [LinearOrderedField α] [FloorRing α] (a : α) :
    0 ≤ Spec.floorMod a 360 ∧ Spec.floorMod a 360 < 360 := by
  have h1 : (⌊a / 360⌋ : α) ≤ a / 360 := Int.floor_le _
  have h2 : a / 360 < (⌊a / 360⌋ : α) + 1 := Int.lt_floor_add_one _
  have h3 : a = 360 * (a / 360) := by field_simp
  unfold Spec.floorMod
  constructor
  · nlinarith
  · nlinarith

/-- The new angle written by `animate()` when auto-rotate is on. -/
theorem App.animate_rotationY [LinearOrderedField α] [FloorRing α] (M : JSMath α)
    (canvas : Canvas α) (s : App.ProductViewer α) (hauto : s.autoRotate = true) :
    (App.animate M canvas s).1.rotationY = jsRem (s.rotationY + 2) 360 := by
  simp [App.animate, App.autoRotateStep, hauto]

end Lemmas

/-! ## Rotation and projection -/

/-- C1: over the reals, the rotated vertex `(x3, y3, z2)` that `draw3DCube` (and `draw`)
computes from a vertex `v` and the angles `rx, ry, rz` is `Rz(rz) * Ry(ry) * Rx(rx) * v`,
that is, X is applied first, then Y on its output, then Z on that output; the angles are
the stored degrees times `π / 180`, and the renderers apply this to every entry of the
vertex table. -/
theorem rotation_is_Rz_Ry_Rx (s : App.ProductViewer ℝ) :
    (∀ (rx ry rz : ℝ) (v : ℝ × ℝ × ℝ),
      Spec.toVec (App.rotateVertex ⟨Real.cos, Real.sin, Real.pi⟩ rx ry rz v) =
          (Spec.Rz ⟨Real.cos, Real.sin, Real.pi⟩ rz * Spec.Ry ⟨Real.cos, Real.sin, Real.pi⟩ ry *
            Spec.Rx ⟨Real.cos, Real.sin, Real.pi⟩ rx).mulVec (Spec.toVec v) ∧
        Spec.toVec (App.rotateVertex ⟨Real.cos, Real.sin, Real.pi⟩ rx ry rz v) =
          (Spec.Rz ⟨Real.cos, Real.sin, Real.pi⟩ rz).mulVec
            ((Spec.Ry ⟨Real.cos, Real.sin, Real.pi⟩ ry).mulVec
              ((Spec.Rx ⟨Real.cos, Real.sin, Real.pi⟩ rx).mulVec (Spec.toVec v)))) ∧
    App.rotatedVertices ⟨Real.cos, Real.sin, Real.pi⟩ s =
      App.vertices.map (App.rotateVertex ⟨Real.cos, Real.sin, Real.pi⟩
        (Spec.radians ⟨Real.cos, Real.sin, Real.pi⟩ s.rotationX)
        (Spec.radians ⟨Real.cos, Real.sin, Real.pi⟩ s.rotationY)
        (Spec.radians ⟨Real.cos, Real.sin, Real.pi⟩ s.rotationZ)) ∧
    Jsx.rotatedVertices ⟨Real.cos, Real.sin, Real.pi⟩ s.toJsx =
      Jsx.vertices.map (App.rotateVertex ⟨Real.cos, Real.sin, Real.pi⟩
        (Spec.radians ⟨Real.cos, Real.sin, Real.pi⟩ s.rotationX)
        (Spec.radians ⟨Real.cos, Real.sin, Real.pi⟩ s.rotationY)
        (Spec.radians ⟨Real.cos, Real.sin, Real.pi⟩ s.rotationZ)) := by
  refine ⟨?_, rfl, rfl⟩
  rintro rx ry rz ⟨x, y, z⟩
  have key : Spec.toVec (App.rotateVertex ⟨Real.cos, Real.sin, Real.pi⟩ rx ry rz (x, y, z)) =
      (Spec.Rz ⟨Real.cos, Real.sin, Real.pi⟩ rz).mulVec
        ((Spec.Ry ⟨Real.cos, Real.sin, Real.pi⟩ ry).mulVec
          ((Spec.Rx ⟨Real.cos, Real.sin, Real.pi⟩ rx).mulVec (Spec.toVec (x, y, z)))) := by
    rw [App.rotateVertex_eq]
    funext i
    fin_cases i <;>
      simp [Spec.toVec, Spec.Rx, Spec.Ry, Spec.Rz, Matrix.mulVec, Matrix.dotProduct,
        Fin.sum_univ_three, Matrix.vecHead, Matrix.vecTail] <;> ring
  refine ⟨?_, key⟩
  rw [key, Matrix.mulVec_mulVec, Matrix.mulVec_mulVec, Matrix.mul_assoc]

/-- C2: with `rotationX = rotationY = rotationZ = 0` and `scale = 1`, over the reals, no rotation
is applied (the rotated vertex table is the vertex table) and each of the 8 vertices `(x, y, z)`
projects to `(x * 300 / (300 + z), y * 300 / (300 + z))`, in both renderers. -/
theorem projection_without_rotation (auto : Bool) :
    App.rotatedVertices ⟨Real.cos, Real.sin, Real.pi⟩ ⟨0, 0, 0, 1, auto⟩ = App.vertices ∧
    App.projectedVertices ⟨Real.cos, Real.sin, Real.pi⟩ ⟨0, 0, 0, 1, auto⟩ =
      App.vertices.map Spec.projectPlain ∧
    Jsx.rotatedVertices ⟨Real.cos, Real.sin, Real.pi⟩ ⟨0, 0, 0, 1, auto⟩ = Jsx.vertices ∧
    Jsx.projectedVertices ⟨Real.cos, Real.sin, Real.pi⟩ ⟨0, 0, 0, 1, auto⟩ =
      Jsx.vertices.map Spec.projectPlain := by
  have hrot := App.rotatedVertices_zero auto
  have hproj : App.projectedVertices ⟨Real.cos, Real.sin, Real.pi⟩ ⟨0, 0, 0, 1, auto⟩ =
      App.vertices.map Spec.projectPlain := by
    unfold App.projectedVertices
    rw [hrot]
    apply List.map_congr_left
    intro v _
    simp only [App.projectVertex, Spec.projectPlain, mul_one, mul_div_assoc]
  exact ⟨hrot, hproj, hrot, hproj⟩

/-- C3: projection is linear in scale. For all rotations, every scale `s` and every factor `k`,
each projected point computed with scale `k * s` is `k` times the one computed with scale `s`;
in particular scale `2 * s` doubles both coordinates and scale `-s` mirrors the point through
the origin. This holds in both renderers. -/
theorem projection_scale_linear {α : Type} [Field α] (M : JSMath α) (s : App.ProductViewer α)
    (k : α) :
    App.projectedVertices M { s with scale := k * s.scale } =
      (App.projectedVertices M s).map (Spec.stretch k) ∧
    App.projectedVertices M { s with scale := 2 * s.scale } =
      (App.projectedVertices M s).map (fun p => (2 * p.1, 2 * p.2)) ∧
    App.projectedVertices M { s with scale := -s.scale } =
      (App.projectedVertices M s).map (fun p => (-p.1, -p.2)) ∧
    Jsx.projectedVertices M { s.toJsx with scale := k * s.scale } =
      (Jsx.projectedVertices M s.toJsx).map (Spec.stretch k) := by
  have gen : ∀ c : α, App.projectedVertices M { s with scale := c * s.scale } =
      (App.projectedVertices M s).map (Spec.stretch c) := by
    intro c
    simp only [App.projectedVertices, List.map_map]
    apply List.map_congr_left
    intro v _
    simp only [Function.comp, App.projectVertex, Spec.stretch, Prod.mk.injEq]
    constructor <;> ring
  refine ⟨gen k, ?_, ?_, gen k⟩
  · exact gen 2
  · have h := gen (-1)
    have hs : Spec.stretch (-1 : α) = fun p => (-p.1, -p.2) := by
      funext p
      simp [Spec.stretch]
    rw [hs] at h
    simpa using h

/-- C4: rotation about Y has period 360 degrees. Over the reals, for all `rotationX`,
`rotationZ` and `scale`, the projected points computed with `rotationY = t + 360` are those
computed with `rotationY = t`, and those computed with `rotationY = 360` are those computed
with `rotationY = 0`, as exact equalities, in both renderers. -/
theorem rotationY_period_360 (s : App.ProductViewer ℝ) :
    App.projectedVertices ⟨Real.cos, Real.sin, Real.pi⟩
        { s with rotationY := s.rotationY + 360 } =
      App.projectedVertices ⟨Real.cos, Real.sin, Real.pi⟩ s ∧
    App.projectedVertices ⟨Real.cos, Real.sin, Real.pi⟩ { s with rotationY := 360 } =
      App.projectedVertices ⟨Real.cos, Real.sin, Real.pi⟩ { s with rotationY := 0 } ∧
    Jsx.projectedVertices ⟨Real.cos, Real.sin, Real.pi⟩
        { s.toJsx with rotationY := s.rotationY + 360 } =
      Jsx.projectedVertices ⟨Real.cos, Real.sin, Real.pi⟩ s.toJsx ∧
    Jsx.projectedVertices ⟨Real.cos, Real.sin, Real.pi⟩ { s.toJsx with rotationY := 360 } =
      Jsx.projectedVertices ⟨Real.cos, Real.sin, Real.pi⟩ { s.toJsx with rotationY := 0 } := by
  have h360 : App.projectedVertices ⟨Real.cos, Real.sin, Real.pi⟩ { s with rotationY := 360 } =
      App.projectedVertices ⟨Real.cos, Real.sin, Real.pi⟩ { s with rotationY := 0 } := by
    have h := App.projectedVertices_add_360 { s with rotationY := 0 }
    simpa using h
  exact ⟨App.projectedVertices_add_360 s, h360, App.projectedVertices_add_360 s, h360⟩

/-- C10: the projection singularity is unreachable for the fixed cube. Over the reals, for all
angles, every rotated vertex `(x3, y3, z2)` of either renderer has squared length `3 * 80 ^ 2`,
hence `|z2| ≤ 80 * √3 < 300`, and the denominator `300 + z2` of the perspective factor is
strictly positive, so it is not zero. -/
theorem projection_denominator_positive (s : App.ProductViewer ℝ) (r : ℝ × ℝ × ℝ)
    (hr : r ∈ App.rotatedVertices ⟨Real.cos, Real.sin, Real.pi⟩ s ∨
      r ∈ Jsx.rotatedVertices ⟨Real.cos, Real.sin, Real.pi⟩ s.toJsx) :
    r.1 ^ 2 + r.2.1 ^ 2 + r.2.2 ^ 2 = 3 * 80 ^ 2 ∧
    |r.2.2| ≤ 80 * Real.sqrt 3 ∧ 80 * Real.sqrt 3 < 300 ∧
    0 < 300 + r.2.2 ∧ 300 + r.2.2 ≠ 0 := by
  have hmem : r ∈ App.rotatedVertices ⟨Real.cos, Real.sin, Real.pi⟩ s := by
    rcases hr with h | h
    · exact h
    · rw [Jsx.rotatedVertices_eq] at h
      exact h
  obtain ⟨v, hv, rfl⟩ := List.mem_map.mp hmem
  have hlen := (App.rotateVertex_sq_length (s.rotationX * Real.pi / 180)
    (s.rotationY * Real.pi / 180) (s.rotationZ * Real.pi / 180) v).trans
    (App.vertices_sq_length v hv)
  set q := App.rotateVertex ⟨Real.cos, Real.sin, Real.pi⟩ (s.rotationX * Real.pi / 180)
    (s.rotationY * Real.pi / 180) (s.rotationZ * Real.pi / 180) v with hq
  have h3 : Real.sqrt 3 ^ 2 = 3 := Real.sq_sqrt (by norm_num)
  have h3nn : 0 ≤ Real.sqrt 3 := Real.sqrt_nonneg 3
  have hz : q.2.2 ^ 2 ≤ (80 * Real.sqrt 3) ^ 2 := by
    have h1 := sq_nonneg q.1
    have h2 := sq_nonneg q.2.1
    nlinarith
  have habs : |q.2.2| ≤ 80 * Real.sqrt 3 := abs_le_of_sq_le_sq hz (by positivity)
  have hlt : 80 * Real.sqrt 3 < 300 := by nlinarith
  have hpos : 0 < 300 + q.2.2 := by
    have := (abs_le.mp habs).1
    linarith
  exact ⟨hlen, habs, hlt, hpos, ne_of_gt hpos⟩

/-- Witness for C10: the vertex `(-80, -80, -80)` at angles 0, where the denominator is 220. -/
theorem projection_denominator_positive_witness :
    ((-80, -80, -80) : ℝ × ℝ × ℝ) ∈
        App.rotatedVertices ⟨Real.cos, Real.sin, Real.pi⟩ ⟨0, 0, 0, 1, false⟩ ∧
      (0 : ℝ) < 300 + (-80) :=
  have hmem : ((-80, -80, -80) : ℝ × ℝ × ℝ) ∈
      App.rotatedVertices ⟨Real.cos, Real.sin, Real.pi⟩ ⟨0, 0, 0, 1, false⟩ := by
    rw [App.rotatedVertices_zero]
    simp [App.vertices, App.size]
  ⟨hmem, (projection_denominator_positive ⟨0, 0, 0, 1, false⟩ (-80, -80, -80)
    (Or.inl hmem)).2.2.2.1⟩

/-! ## Frame driver and controls -/

/-- C5: auto-rotate step of the imperative viewer. For every state with `autoRotate = true` and
`0 ≤ rotationY < 360`, one call of `animate` sets `rotationY` to `(rotationY + 2) mod 360`
(that is `rotationY + 2` below 358 and `rotationY + 2 - 360` from 358 on), the new value is
again in `[0, 360)`, and starting at `rotationY = 359` the step yields 1. -/
theorem animate_auto_rotate_step {α : Type} [LinearOrderedField α] [FloorRing α]
    (M : JSMath α) (canvas : Canvas α) (s : App.ProductViewer α)
    (hauto : s.autoRotate = true) (h0 : 0 ≤ s.rotationY) (h360 : s.rotationY < 360) :
    (App.animate M canvas s).1.rotationY = Spec.floorMod (s.rotationY + 2) 360 ∧
    (s.rotationY < 358 → (App.animate M canvas s).1.rotationY = s.rotationY + 2) ∧
    (358 ≤ s.rotationY → (App.animate M canvas s).1.rotationY = s.rotationY + 2 - 360) ∧
    0 ≤ (App.animate M canvas s).1.rotationY ∧
    (App.animate M canvas s).1.rotationY < 360 ∧
    (App.animate M canvas { s with rotationY := 359 }).1.rotationY = 1 := by
  have hq : ∀ r : α, 0 ≤ r → 0 ≤ (r + 2) / 360 := fun r hr => by positivity
  have hnew : (App.animate M canvas s).1.rotationY = Spec.floorMod (s.rotationY + 2) 360 := by
    rw [App.animate_rotationY M canvas s hauto, jsRem_eq_floorMod _ _ (hq _ h0)]
  have hlow : s.rotationY < 358 → ⌊(s.rotationY + 2) / 360⌋ = 0 := by
    intro h
    rw [Int.floor_eq_iff]
    refine ⟨by simpa using hq _ h0, ?_⟩
    rw [div_lt_iff₀ (by norm_num)]
    push_cast
    linarith
  have hhigh : 358 ≤ s.rotationY → ⌊(s.rotationY + 2) / 360⌋ = 1 := by
    intro h
    rw [Int.floor_eq_iff]
    constructor
    · rw [le_div_iff₀ (by norm_num)]
      push_cast
      linarith
    · rw [div_lt_iff₀ (by norm_num)]
      push_cast
      linarith
  have h359 : (App.animate M canvas { s with rotationY := 359 }).1.rotationY = 1 := by
    rw [App.animate_rotationY M canvas { s with rotationY := 359 } hauto,
      jsRem_eq_floorMod _ _ (hq _ (by norm_num))]
    have hfl : ⌊((359 : α) + 2) / 360⌋ = 1 := by
      rw [Int.floor_eq_iff]
      constructor
      · rw [le_div_iff₀ (by norm_num)]
        push_cast
        norm_num
      · rw [div_lt_iff₀ (by norm_num)]
        push_cast
        norm_num
    simp only [Spec.floorMod, hfl]
    push_cast
    norm_num
  refine ⟨hnew, ?_, ?_, ?_, ?_, h359⟩
  · intro h
    rw [hnew, Spec.floorMod, hlow h]
    simp
  · intro h
    rw [hnew, Spec.floorMod, hhigh h]
    simp
  · rw [hnew]
    exact (Spec.floorMod_360_bounds _).1
  · rw [hnew]
    exact (Spec.floorMod_360_bounds _).2

/-- Witness for C5: over the rationals, auto-rotating at `rotationY = 359` gives 1. -/
theorem animate_auto_rotate_step_witness :
    (0 : ℚ) ≤ 359 ∧ (359 : ℚ) < 360 ∧
      (App.animate (⟨fun _ => 1, fun _ => 0, 3⟩ : JSMath ℚ) ⟨350, 350⟩
        ⟨0, 359, 0, 1, true⟩).1.rotationY = 1 :=
  ⟨by norm_num, by norm_num,
    (animate_auto_rotate_step (⟨fun _ => 1, fun _ => 0, 3⟩ : JSMath ℚ) ⟨350, 350⟩
      ⟨0, 359, 0, 1, true⟩ rfl (by norm_num) (by norm_num)).2.2.2.2.2⟩

/-- C6: reset of the imperative viewer. After any sequence of slider inputs, clicks on the
two buttons and animation frames, from the constructor's state or any other, `reset()`
leaves `rotationX = rotationY = rotationZ = 0`, `scale = 1` and `autoRotate = false`. -/
theorem reset_after_any_events {α : Type} [LinearOrderedField α] [FloorRing α]
    (M : JSMath α) (canvas : Canvas α) (s0 : App.ProductViewer α)
    (events : List (App.Event α)) :
    App.reset (App.run M canvas s0 events) = ⟨0, 0, 0, 1, false⟩ ∧
    App.reset (App.run M canvas App.init events) = ⟨0, 0, 0, 1, false⟩ ∧
    App.run M canvas App.init (events ++ [App.Event.clickReset]) = ⟨0, 0, 0, 1, false⟩ := by
  refine ⟨rfl, rfl, ?_⟩
  simp [App.run, List.foldl_append, App.step, App.reset]

/-- C7: edge list invariant. The edge table has exactly 12 entries, both indices of every
entry are at most 7, every index `0..7` occurs in some edge, the projected vertex list has 8
entries, so both lookups of every edge are in bounds and drawing the cube never fails; this
holds for the tables of both renderers. -/
theorem edge_table_invariant {α : Type} [Field α] (M : JSMath α) (canvas : Canvas α)
    (s : App.ProductViewer α) :
    (App.edges.length = 12 ∧
      (∀ e ∈ App.edges, e.1 < 8 ∧ e.2 < 8) ∧
      (∀ i < 8, ∃ e ∈ App.edges, e.1 = i ∨ e.2 = i) ∧
      (App.projectedVertices M s).length = 8 ∧
      (∀ e ∈ App.edges, ((App.projectedVertices M s)[e.1]?).isSome = true ∧
        ((App.projectedVertices M s)[e.2]?).isSome = true) ∧
      (App.draw3DCube M canvas s).isSome = true) ∧
    (Jsx.edges.length = 12 ∧
      (∀ e ∈ Jsx.edges, e.1 < 8 ∧ e.2 < 8) ∧
      (∀ i < 8, ∃ e ∈ Jsx.edges, e.1 = i ∨ e.2 = i) ∧
      (Jsx.projectedVertices M s.toJsx).length = 8 ∧
      (∀ e ∈ Jsx.edges, ((Jsx.projectedVertices M s.toJsx)[e.1]?).isSome = true ∧
        ((Jsx.projectedVertices M s.toJsx)[e.2]?).isSome = true) ∧
      (Jsx.drawCube M canvas s.toJsx).isSome = true) := by
  have hbound : ∀ e ∈ App.edges, e.1 < 8 ∧ e.2 < 8 := by decide
  have hcover : ∀ i < 8, ∃ e ∈ App.edges, e.1 = i ∨ e.2 = i := by decide
  have hlen : (App.projectedVertices M s).length = 8 := rfl
  have hlook : ∀ e ∈ App.edges, ((App.projectedVertices M s)[e.1]?).isSome = true ∧
      ((App.projectedVertices M s)[e.2]?).isSome = true := by
    intro e he
    have hb := hbound e he
    constructor
    · rw [Option.isSome_iff_exists]
      exact ⟨_, List.getElem?_eq_getElem (by rw [hlen]; exact hb.1)⟩
    · rw [Option.isSome_iff_exists]
      exact ⟨_, List.getElem?_eq_getElem (by rw [hlen]; exact hb.2)⟩
  exact ⟨⟨rfl, hbound, hcover, hlen, hlook, rfl⟩, ⟨rfl, hbound, hcover, hlen, hlook, rfl⟩⟩

/-- C8: the two renderers are functionally identical. For all view parameters, the 8 projected
points and the 12 edges computed by `draw` in `ProductViewer.jsx` equal, element by element and
in the same order, those computed by `draw3DCube` in `app.js`; so do the vertex tables, the
rotated vertices and the canvas operations issued for the cube. -/
theorem renderers_identical {α : Type} [Field α] (M : JSMath α) (canvas : Canvas α)
    (s : App.ProductViewer α) :
    Jsx.projectedVertices M s.toJsx = App.projectedVertices M s ∧
    Jsx.edges = App.edges ∧
    (Jsx.vertices : List (α × α × α)) = App.vertices ∧
    Jsx.rotatedVertices M s.toJsx = App.rotatedVertices M s ∧
    Jsx.drawCube M canvas s.toJsx = App.draw3DCube M canvas s :=
  ⟨rfl, rfl, rfl, rfl, rfl⟩

/-- C9 fails on `ProductViewer.jsx`: one click on the auto-rotate button of the freshly mounted
component gives `autoRotate = true` with `rotationY = 0`; a frame of the component (`draw`)
writes no state cell, so it leaves `rotationY = 0`, whereas one call of `animate` in `app.js`
from the same values sets `rotationY = 2`. -/
theorem jsx_frame_ignores_autoRotate (M : JSMath ℚ) (canvas : Canvas ℚ) :
    Jsx.toggleAutoRotate (Jsx.init : Jsx.ProductViewer ℚ) = ⟨0, 0, 0, 1, true⟩ ∧
    (Jsx.draw M canvas ⟨0, 0, 0, 1, true⟩).1.rotationY = 0 ∧
    (App.animate M canvas ⟨0, 0, 0, 1, true⟩).1.rotationY = 2 ∧
    ∀ s : Jsx.ProductViewer ℚ, (Jsx.draw M canvas s).1 = s := by
  refine ⟨rfl, rfl, ?_, fun _ => rfl⟩
  rw [App.animate_rotationY M canvas ⟨0, 0, 0, 1, true⟩ rfl,
    jsRem_eq_floorMod _ _ (by norm_num)]
  have hfl : ⌊((0 : ℚ) + 2) / 360⌋ = 0 := by
    rw [Int.floor_eq_iff]
    constructor <;> norm_num
  rw [Spec.floorMod, hfl]
  norm_num
